import Mathlib

/-!
Verification of the forecasting-mrp forecast engine core (registry, backtesting,
champion-challenger promotion, ensemble blending, pipeline orchestration).

The Python source is shallowly embedded over exact rationals (`ℚ`): Python
floats become `ℚ`, `round(x, n)` becomes round-half-even at `n` decimal
places (CPython's rounding rule), numpy arrays become `List ℚ`, Python dicts
become association lists with first-match lookup (keys are constructed unique
by the embedded code), and code that can raise becomes `Except String`.

Two source fields are intentionally not carried: `rmse` / `avg_rmse`
(they need a floating-point square root, which has no exact rational
counterpart; no verified property mentions them) and the `model_metadata` /
`selections` bookkeeping fields that no verified property observes.
Randomness (numpy `default_rng`) is abstracted as explicit draw functions
passed to the bootstrap, and `np.std` (an irrational square root) is
abstracted by quantifying over the fitted `(last_value, std)` state that
`NaiveModel.train` stores.
-/

/-- Arithmetic mean of a list of rationals (`np.mean` / `sum(..)/len(..)`).
On the empty list this yields `0` (division by zero in `ℚ`); every embedded
call site guards emptiness exactly as the source does. -/
def mean (xs : List ℚ) : ℚ := xs.sum / xs.length

/-- Round-half-even to an integer: CPython's rounding rule for `round` and
for `format(x, '.2f')`. -/
def rhalfEven (q : ℚ) : ℤ :=
  if q - ⌊q⌋ < 1/2 then ⌊q⌋
  else if 1/2 < q - ⌊q⌋ then ⌊q⌋ + 1
  else if 2 ∣ ⌊q⌋ then ⌊q⌋ else ⌊q⌋ + 1

/-- Python `round(q, n)`: round-half-even at `n` decimal places. -/
def roundTo (n : ℕ) (q : ℚ) : ℚ := (rhalfEven (q * 10 ^ n) : ℚ) / 10 ^ n

theorem rhalfEven_le_floor_add_one (q : ℚ) : rhalfEven q ≤ ⌊q⌋ + 1 := by
  unfold rhalfEven
  split
  · exact (Int.le_add_one le_rfl)
  · split
    · exact le_rfl
    · split
      · exact Int.le_add_one le_rfl
      · exact le_rfl

theorem floor_le_rhalfEven (q : ℚ) : ⌊q⌋ ≤ rhalfEven q := by
  unfold rhalfEven
  split
  · exact le_rfl
  · split
    · exact Int.le_add_one le_rfl
    · split
      · exact le_rfl
      · exact Int.le_add_one le_rfl

theorem rhalfEven_mono {x y : ℚ} (hxy : x ≤ y) : rhalfEven x ≤ rhalfEven y := by
  rcases lt_or_eq_of_le (Int.floor_mono hxy) with hf | hf
  · calc rhalfEven x ≤ ⌊x⌋ + 1 := rhalfEven_le_floor_add_one x
      _ ≤ ⌊y⌋ := hf
      _ ≤ rhalfEven y := floor_le_rhalfEven y
  · unfold rhalfEven
    rw [← hf]
    have hfr : x - ⌊x⌋ ≤ y - ⌊x⌋ := by linarith
    split_ifs <;> first | omega | linarith

theorem roundTo_mono (n : ℕ) {x y : ℚ} (hxy : x ≤ y) : roundTo n x ≤ roundTo n y := by
  unfold roundTo
  have hp : (0 : ℚ) < 10 ^ n := by positivity
  have h1 : x * 10 ^ n ≤ y * 10 ^ n := mul_le_mul_of_nonneg_right hxy (le_of_lt hp)
  have h2 : ((rhalfEven (x * 10 ^ n) : ℚ)) ≤ (rhalfEven (y * 10 ^ n) : ℚ) :=
    Int.cast_le.mpr (rhalfEven_mono h1)
  exact (div_le_div_iff_of_pos_right hp).mpr h2

/-- Python slice `xs[:-h]` for `h : ℕ` (for `h = 0` the slice `xs[:-0]` is
`xs[:0] = []`). Used for the training prefix `series[:-holdout_weeks]`. -/
def dropLastPy (xs : List ℚ) (h : ℕ) : List ℚ :=
  if h = 0 then [] else xs.take (xs.length - h)

/-- Python slice `xs[-h:]` for `h : ℕ` (for `h = 0` the slice `xs[-0:]` is
`xs[0:] = xs`). Used for the holdout window `series[-holdout_weeks:]` and the
trailing window `train[-effective_window:]`. -/
def takeLastPy (xs : List ℚ) (h : ℕ) : List ℚ :=
  if h = 0 then xs else xs.drop (xs.length - h)

/-- Per-product backtest metrics (`src/models/base.py` `BacktestMetrics`).
The source also stores `rmse`; it is omitted here because it requires a
floating-point square root (see the header note) and no verified claim
mentions it. -/
structure BacktestMetrics where
  mape : ℚ
  mae : ℚ
  bias : ℚ
deriving DecidableEq, Repr

/-- Aggregated metrics for one ABC class (`src/backtesting/metrics.py`
`ClassMetrics`); `avg_rmse` omitted like `rmse` above. -/
structure ClassMetrics where
  classe_abc : String
  avg_mape : ℚ
  avg_mae : ℚ
  avg_bias : ℚ
  product_count : ℕ
deriving DecidableEq, Repr

/-- `src/backtesting/metrics.py` `BaselineComparison`. -/
structure BaselineComparison where
  produto_id : String
  model_name : String
  model_mape : ℚ
  baseline_mape : ℚ
  mape_improvement : ℚ
  model_beats_baseline : Bool
deriving DecidableEq, Repr

/-- `moving_average_forecast` (`src/backtesting/metrics.py`): trailing
moving-average of the training prefix, held constant over the holdout. -/
def moving_average_forecast (series : List ℚ) (holdout_weeks : ℕ) (window : ℕ) : List ℚ :=
  let train := dropLastPy series holdout_weeks
  let effective_window := min window train.length
  let ma_value := mean (takeLastPy train effective_window)
  List.replicate holdout_weeks ma_value

/-- MAPE over holdout points with nonzero actual, as computed (inline, with
identical code) by `compute_baseline_metrics` and by every model `backtest`:
`float(np.mean(abs_errors[nonzero] / np.abs(actual[nonzero])) * 100)` when
`np.any(nonzero)`, else `0.0`. -/
def mapeOf (actual predicted : List ℚ) : ℚ :=
  let nonzero := (actual.zip predicted).filter (fun p => decide (p.1 ≠ 0))
  if nonzero = [] then 0
  else mean (nonzero.map (fun p => |p.1 - p.2| / |p.1|)) * 100

/-- Mean absolute error `np.mean(np.abs(actual - predicted))`. -/
def maeOf (actual predicted : List ℚ) : ℚ :=
  mean ((actual.zip predicted).map (fun p => |p.1 - p.2|))

/-- Mean signed error `np.mean(actual - predicted)`. -/
def biasOf (actual predicted : List ℚ) : ℚ :=
  mean ((actual.zip predicted).map (fun p => p.1 - p.2))

/-- `compute_baseline_metrics` (`src/backtesting/metrics.py`). -/
def compute_baseline_metrics (series : List ℚ) (holdout_weeks : ℕ) (window : ℕ) :
    BacktestMetrics :=
  let actual := takeLastPy series holdout_weeks
  let predicted := moving_average_forecast series holdout_weeks window
  { mape := roundTo 2 (mapeOf actual predicted)
    mae := roundTo 2 (maeOf actual predicted)
    bias := roundTo 2 (biasOf actual predicted) }

/-- `class_by_product.get(pid, "C")` default used by `aggregate_by_class`. -/
def classOf (class_by_product : List (String × String)) (pid : String) : String :=
  (class_by_product.lookup pid).getD "C"

/-- `aggregate_by_class` (`src/backtesting/metrics.py`): bucket per-product
metrics by ABC class (unknown class defaults to "C"), average each field,
one entry per observed class sorted by class label. -/
def aggregate_by_class (per_product_metrics : List (String × BacktestMetrics))
    (class_by_product : List (String × String)) : List (String × ClassMetrics) :=
  let classes := List.insertionSort (· ≤ ·)
    ((per_product_metrics.map (fun p => classOf class_by_product p.1)).eraseDups)
  classes.map (fun cls =>
    let ms := ((per_product_metrics.filter
      (fun p => decide (classOf class_by_product p.1 = cls))).map (fun p => p.2))
    (cls, { classe_abc := cls
            avg_mape := roundTo 2 ((ms.map (fun m => m.mape)).sum / ms.length)
            avg_mae := roundTo 2 ((ms.map (fun m => m.mae)).sum / ms.length)
            avg_bias := roundTo 2 ((ms.map (fun m => m.bias)).sum / ms.length)
            product_count := ms.length }))

/-- `compare_against_baseline` (`src/backtesting/metrics.py`). -/
def compare_against_baseline (model_metrics baseline_metrics : List (String × BacktestMetrics))
    (model_name : String) : List BaselineComparison :=
  model_metrics.filterMap (fun p =>
    match baseline_metrics.lookup p.1 with
    | none => none
    | some b => some
        { produto_id := p.1
          model_name := model_name
          model_mape := p.2.mape
          baseline_mape := b.mape
          mape_improvement := roundTo 2 (b.mape - p.2.mape)
          model_beats_baseline := decide (b.mape - p.2.mape > 0) })

/-- Weekly series keyed by product id (`series_by_product`). -/
abbrev Series := List (String × List ℚ)

/-- The `backtest` operation of one forecast model, as consumed by
`Backtester.run`; a Python exception is an `Except.error`. -/
abbrev BacktestFn := List String → ℕ → Series → Except String (List (String × BacktestMetrics))

/-- The filter predicate of `Backtester.run`:
`pid in series_by_product and len(series_by_product[pid]) > holdout_weeks`. -/
def survives (series_by_product : Series) (holdout_weeks : ℕ) (pid : String) : Bool :=
  match series_by_product.lookup pid with
  | some s => decide (s.length > holdout_weeks)
  | none => false

/-- `src/backtesting/backtester.py` `BacktestResult` (the `model_metadata`
field, appended post-hoc by callers, is not observed by any claim and is
omitted). -/
structure BacktestResult where
  per_product : List (String × List (String × BacktestMetrics)) := []
  per_class : List (String × List (String × ClassMetrics)) := []
  baseline_comparisons : List BaselineComparison := []
  products_tested : ℕ := 0
deriving DecidableEq, Repr

/-- The per-model loop of `Backtester.run`: run each model's `backtest` in
order (an exception propagates immediately, aborting the whole run), skip
models that return no metrics, and accumulate per-product metrics, per-class
aggregates and baseline comparisons. -/
def Backtester.runModels (bts : List (String × BacktestFn)) (valid_pids : List String)
    (holdout_weeks : ℕ) (series_by_product : Series)
    (class_by_product : List (String × String))
    (baseline_metrics : List (String × BacktestMetrics)) :
    Except String (List (String × List (String × BacktestMetrics)) ×
      List (String × List (String × ClassMetrics)) × List BaselineComparison) :=
  match bts with
  | [] => .ok ([], [], [])
  | (model_name, bt) :: rest =>
    match bt valid_pids holdout_weeks series_by_product with
    | .error e => .error e
    | .ok model_metrics =>
      match Backtester.runModels rest valid_pids holdout_weeks series_by_product
          class_by_product baseline_metrics with
      | .error e => .error e
      | .ok (pp, pc, comps) =>
        if model_metrics = [] then .ok (pp, pc, comps)
        else .ok ((model_name, model_metrics) :: pp,
          (model_name, aggregate_by_class model_metrics class_by_product) :: pc,
          compare_against_baseline model_metrics baseline_metrics model_name ++ comps)

/-- `Backtester.run` (`src/backtesting/backtester.py`): filter products to
those with a known series strictly longer than the holdout, compute the
moving-average baseline for every survivor under the reserved key
`"BASELINE"`, then run every model's backtest. -/
def Backtester.run (bts : List (String × BacktestFn)) (produto_ids : List String)
    (series_by_product : Series) (class_by_product : List (String × String))
    (holdout_weeks : ℕ) (baseline_window : ℕ) : Except String BacktestResult :=
  let valid_pids := produto_ids.filter (survives series_by_product holdout_weeks)
  if valid_pids = [] then .ok {} else
  let baseline_metrics := valid_pids.map (fun pid =>
    (pid, compute_baseline_metrics ((series_by_product.lookup pid).getD []) holdout_weeks
      baseline_window))
  match Backtester.runModels bts valid_pids holdout_weeks series_by_product
      class_by_product baseline_metrics with
  | .error e => .error e
  | .ok (pp, pc, comps) =>
    .ok { per_product := ("BASELINE", baseline_metrics) :: pp
          per_class := ("BASELINE", aggregate_by_class baseline_metrics class_by_product) :: pc
          baseline_comparisons := comps
          products_tested := valid_pids.length }

/-- `src/backtesting/champion_challenger.py` `PromotionDecision`. -/
structure PromotionDecision where
  model_name : String
  promoted : Bool
  new_mape : ℚ
  champion_mape : Option ℚ
  reason : String
deriving DecidableEq, Repr

/-- Python `f"{q:.2f}"`: round-half-even to 2 decimal places and print with
exactly two digits after the decimal point. -/
def fmt2 (q : ℚ) : String :=
  let r : ℤ := rhalfEven (q * 100)
  let sign := if r < 0 then "-" else ""
  let a := r.natAbs
  sign ++ toString (a / 100) ++ "." ++
    (if a % 100 < 10 then "0" ++ toString (a % 100) else toString (a % 100))

/-- `ChampionChallengerService.evaluate`
(`src/backtesting/champion_challenger.py`): average the challenger's
per-product MAPE (rounded to 4 decimal places, as `round(..., 4)` in the
source), auto-promote when there is no champion, otherwise promote iff the
rounded average is strictly below the champion's MAPE. -/
def ChampionChallengerService.evaluate (backtest_result : BacktestResult)
    (model_name : String) (champion_mape : Option ℚ) : PromotionDecision :=
  let per_product := (backtest_result.per_product.lookup model_name).getD []
  if per_product = [] then
    { model_name := model_name, promoted := false, new_mape := 0,
      champion_mape := champion_mape,
      reason := "No backtest metrics available for model" }
  else
    let new_avg_mape := roundTo 4 ((per_product.map (fun p => p.2.mape)).sum / per_product.length)
    match champion_mape with
    | none =>
      { model_name := model_name, promoted := true, new_mape := new_avg_mape,
        champion_mape := none,
        reason := "No existing champion — auto-promoted" }
    | some cm =>
      if new_avg_mape < cm then
        { model_name := model_name, promoted := true, new_mape := new_avg_mape,
          champion_mape := some cm,
          reason := "New MAPE (" ++ fmt2 new_avg_mape ++ "%) < Champion MAPE (" ++ fmt2 cm ++ "%)" }
      else
        { model_name := model_name, promoted := false, new_mape := new_avg_mape,
          champion_mape := some cm,
          reason := "New MAPE (" ++ fmt2 new_avg_mape ++ "%) >= Champion MAPE (" ++ fmt2 cm ++ "%)" }

/-- ABC classification enum (`src/db/models.py` `ClasseABC`). -/
inductive ClasseABC
  | A
  | B
  | C
deriving DecidableEq, Repr

/-- Demand-pattern enum (`src/db/models.py` `PadraoDemanda`). -/
inductive PadraoDemanda
  | REGULAR
  | INTERMITENTE
  | ERRATICO
  | LUMPY
deriving DecidableEq, Repr

/-- `src/models/registry.py` `ModelSelection`. -/
structure ModelSelection where
  primary : String
  fallback : String
  ensemble : Bool := false
  ensemble_weights : Option (List (String × ℚ)) := none
deriving DecidableEq, Repr

/-- `_MODEL_MATRIX` (`src/models/registry.py`): classification to
(primary, fallback) mapping. -/
def MODEL_MATRIX : List ((PadraoDemanda × String) × (String × String)) :=
  [((.REGULAR, "AB"), ("TFT", "LGBM")),
   ((.REGULAR, "C"), ("ETS", "NAIVE")),
   ((.ERRATICO, "AB"), ("TFT", "ETS")),
   ((.ERRATICO, "C"), ("ETS", "NAIVE")),
   ((.INTERMITENTE, "ANY"), ("CROSTON", "SBA")),
   ((.LUMPY, "ANY"), ("TSB", "BOOTSTRAP"))]

/-- `_ENSEMBLE_WEIGHTS` (`src/models/registry.py`). -/
def ENSEMBLE_WEIGHTS : List (String × ℚ) := [("TFT", 0.6), ("LGBM", 0.4)]

/-- `MIN_WEEKS_FOR_COMPLEX` (`src/models/registry.py`). -/
def MIN_WEEKS_FOR_COMPLEX : ℕ := 40

/-- `ModelRegistry.select_model` (`src/models/registry.py`). The source
indexes `_MODEL_MATRIX[(padrao_demanda, "ANY")]` directly for
intermittent/lumpy patterns; that key always exists, so the `getD` default
here is unreachable. -/
def ModelRegistry.select_model (classe_abc : ClasseABC) (padrao_demanda : PadraoDemanda)
    (modelo_override : Option String) (weeks_of_data : Option ℕ) : ModelSelection :=
  match modelo_override with
  | some m => { primary := m, fallback := "NAIVE" }
  | none =>
    if (match weeks_of_data with
        | some w => decide (w < MIN_WEEKS_FOR_COMPLEX)
        | none => false) then
      { primary := "ETS", fallback := "NAIVE" }
    else if padrao_demanda = .INTERMITENTE ∨ padrao_demanda = .LUMPY then
      let pf := (MODEL_MATRIX.lookup (padrao_demanda, "ANY")).getD ("ETS", "NAIVE")
      { primary := pf.1, fallback := pf.2 }
    else
      let abc_group := if classe_abc = .A ∨ classe_abc = .B then "AB" else "C"
      let pf := (MODEL_MATRIX.lookup (padrao_demanda, abc_group)).getD ("ETS", "NAIVE")
      let ensemble := classe_abc = .A ∧ pf.1 = "TFT"
      { primary := pf.1, fallback := pf.2,
        ensemble := decide ensemble,
        ensemble_weights := if ensemble then some ENSEMBLE_WEIGHTS else none }

/-- Quantile forecast for one horizon step (`src/models/base.py`
`ForecastQuantiles`); the source stores `Decimal(str(round(x, 2)))`, which is
exactly `roundTo 2 x` in `ℚ`. -/
structure ForecastQuantiles where
  p10 : ℚ
  p25 : ℚ
  p50 : ℚ
  p75 : ℚ
  p90 : ℚ
deriving DecidableEq, Repr

instance : Inhabited ForecastQuantiles := ⟨⟨0, 0, 0, 0, 0⟩⟩

/-- `src/models/base.py` `ForecastResult`. -/
structure ForecastResult where
  produto_id : String
  model_name : String
  quantiles : List ForecastQuantiles := []
deriving DecidableEq, Repr

/-- The loop body of `NaiveModel.predict` (`src/models/naive/naive_model.py`)
for one fitted product: the same quantile tuple is appended for every
horizon step. `last_value` and `std` are the entries of `self._fitted[pid]`
computed by `NaiveModel.train` (`float(series[-1])` and `float(np.std(recent))`;
`np.std` is a square root and is abstracted by quantifying over `std`,
which is always nonnegative in the source). -/
def NaiveModel.predictOne (last_value std : ℚ) (horizonte_semanas : ℕ) :
    List ForecastQuantiles :=
  let q : ForecastQuantiles :=
    if 0 < std then
      { p10 := roundTo 2 (max (last_value - 1.28 * std) 0)
        p25 := roundTo 2 (max (last_value - 0.67 * std) 0)
        p50 := roundTo 2 last_value
        p75 := roundTo 2 (last_value + 0.67 * std)
        p90 := roundTo 2 (last_value + 1.28 * std) }
    else
      { p10 := roundTo 2 last_value, p25 := roundTo 2 last_value
        p50 := roundTo 2 last_value, p75 := roundTo 2 last_value
        p90 := roundTo 2 last_value }
  List.replicate horizonte_semanas q

/-- `NaiveModel.predict` over the fitted state `self._fitted`
(pid -> (last_value, std)): an unfitted product gets an empty-quantile
result. -/
def NaiveModel.predict (fitted : List (String × (ℚ × ℚ))) (produto_ids : List String)
    (horizonte_semanas : ℕ) : List ForecastResult :=
  produto_ids.map (fun pid =>
    match fitted.lookup pid with
    | none => { produto_id := pid, model_name := "NAIVE" }
    | some (last_value, std) =>
      { produto_id := pid, model_name := "NAIVE",
        quantiles := NaiveModel.predictOne last_value std horizonte_semanas })

/-- `NaiveModel.backtest` (`src/models/naive/naive_model.py`): per product
with enough history, forecast the last training value flat over the holdout
and score it; products with missing or too-short series are omitted. -/
def NaiveModel.backtest (produto_ids : List String) (holdout_weeks : ℕ)
    (series_by_product : Series) : List (String × BacktestMetrics) :=
  produto_ids.filterMap (fun pid =>
    match series_by_product.lookup pid with
    | none => none
    | some s =>
      if s.length ≤ holdout_weeks then none
      else
        let train_data := dropLastPy s holdout_weeks
        let actual := takeLastPy s holdout_weeks
        let predicted := List.replicate holdout_weeks (train_data.getLast?.getD 0)
        some (pid, { mape := roundTo 2 (mapeOf actual predicted)
                     mae := roundTo 2 (maeOf actual predicted)
                     bias := roundTo 2 (biasOf actual predicted) }))

/-- Ascending sort (the sort `np.percentile` performs internally). -/
def sortAsc (xs : List ℚ) : List ℚ := List.insertionSort (· ≤ ·) xs

/-- Linear interpolation into a (sorted) list at fractional position `pos`:
`a[i] + frac * (a[i+1] - a[i])` with `i = ⌊pos⌋`, numpy's default
interpolation rule for percentiles. When `i + 1` is out of range (only
possible at the right endpoint) the value is `a[i]` itself. -/
def interpAt (s : List ℚ) (pos : ℚ) : ℚ :=
  let i := (⌊pos⌋).toNat
  let a := s.getD i 0
  let b := s.getD (i + 1) a
  a + (pos - ⌊pos⌋) * (b - a)

/-- `np.percentile(xs, q)` with the default linear interpolation:
interpolate the sorted data at position `q / 100 * (len - 1)`. -/
def percentile (xs : List ℚ) (q : ℚ) : ℚ :=
  if xs = [] then 0
  else interpAt (sortAsc xs) (q * ((xs.length : ℚ) - 1) / 100)

/-- `_bootstrap_quantiles` (`src/models/croston/croston_model.py`).
The generator draws are abstracted: `u i step` is the `rng.random` draw and
`d i step` the `rng.choice(nonzero_values)` draw for path `i` at horizon
`step` (which value `d` takes does not affect any verified property).
A simulated value is `occurrence * demand` where the occurrence indicator is
`rng.random() >= zero_fraction`. -/
def bootstrapQuantiles (series : List ℚ) (horizon n_paths : ℕ) (u d : ℕ → ℕ → ℚ) :
    List ForecastQuantiles :=
  let nonzero_values := series.filter (fun x => decide (0 < x))
  let zero_fraction := mean (series.map (fun x => if x = 0 then 1 else 0))
  if nonzero_values = [] then
    List.replicate horizon { p10 := 0, p25 := 0, p50 := 0, p75 := 0, p90 := 0 }
  else
    (List.range horizon).map (fun step =>
      let col := (List.range n_paths).map (fun i =>
        (if zero_fraction ≤ u i step then 1 else 0) * d i step)
      { p10 := roundTo 2 (percentile col 10)
        p25 := roundTo 2 (percentile col 25)
        p50 := roundTo 2 (percentile col 50)
        p75 := roundTo 2 (percentile col 75)
        p90 := roundTo 2 (percentile col 90) })

/-- `_blend` inside `_weighted_quantile`
(`src/apps/forecast-engine/src/models/ensemble/ensemble_model.py`):
weighted average of two quantile values, rounded to 2 decimal places. -/
def blendQ (va vb weight_a weight_b : ℚ) : ℚ := roundTo 2 (va * weight_a + vb * weight_b)

/-- `_weighted_quantile` (`src/models/ensemble/ensemble_model.py`). -/
def weightedQuantile (qa qb : ForecastQuantiles) (weight_a weight_b : ℚ) : ForecastQuantiles :=
  { p10 := blendQ qa.p10 qb.p10 weight_a weight_b
    p25 := blendQ qa.p25 qb.p25 weight_a weight_b
    p50 := blendQ qa.p50 qb.p50 weight_a weight_b
    p75 := blendQ qa.p75 qb.p75 weight_a weight_b
    p90 := blendQ qa.p90 qb.p90 weight_a weight_b }

/-- The dict comprehension `{r.produto_id: r for r in results}` followed by
`.get(pid)`: the last entry for a given product id wins. -/
def findResult (results : List ForecastResult) (pid : String) : Option ForecastResult :=
  results.reverse.find? (fun r => r.produto_id == pid)

/-- The per-product loop body of `EnsembleModel.predict`
(`src/models/ensemble/ensemble_model.py`): empty result when either
sub-model is missing or has empty quantiles, otherwise blend per level over
the shorter horizon. -/
def EnsembleModel.predictFor (tft_results lgbm_results : List ForecastResult)
    (w_tft w_lgbm : ℚ) (pid : String) : ForecastResult :=
  match findResult tft_results pid, findResult lgbm_results pid with
  | some tft_r, some lgbm_r =>
    if tft_r.quantiles = [] ∨ lgbm_r.quantiles = [] then
      { produto_id := pid, model_name := "ENSEMBLE" }
    else
      let horizon := min tft_r.quantiles.length lgbm_r.quantiles.length
      { produto_id := pid, model_name := "ENSEMBLE",
        quantiles := (List.range horizon).map (fun i =>
          weightedQuantile (tft_r.quantiles.getD i default) (lgbm_r.quantiles.getD i default)
            w_tft w_lgbm) }
  | _, _ => { produto_id := pid, model_name := "ENSEMBLE" }

/-- `EnsembleModel.predict` given the two sub-model prediction outputs
(the source first calls `self._tft.predict` / `self._lgbm.predict`; those
outputs are the first two arguments here) and the two weights
(`self._weights.get("TFT", 0.6)` / `self._weights.get("LGBM", 0.4)`). -/
def EnsembleModel.predict (tft_results lgbm_results : List ForecastResult)
    (produto_ids : List String) (w_tft w_lgbm : ℚ) : List ForecastResult :=
  produto_ids.map (EnsembleModel.predictFor tft_results lgbm_results w_tft w_lgbm)

/-- `src/pipeline/executor.py` `StepStatus`. -/
inductive StepStatus
  | PENDING
  | RUNNING
  | COMPLETED
  | SKIPPED
  | FAILED
deriving DecidableEq, Repr

/-- `src/pipeline/executor.py` `StepLog`. -/
structure StepLog where
  step_number : ℕ
  step_name : String
  status : StepStatus := .PENDING
  products_processed : ℕ := 0
  error_message : Option String := none
deriving DecidableEq, Repr

/-- One forecast model as the pipeline sees it (`predict` for steps 3-6 and
`backtest` for step 8); a raised exception is an `Except.error`. -/
structure PModel where
  predict : List String → ℕ → Except String (List ForecastResult)
  backtest : BacktestFn

/-- `src/pipeline/segmentation.py` `SkuSegment` (the `selections`
traceability map is not observed by the pipeline and is omitted). -/
structure SkuSegment where
  model_name : String
  produto_ids : List String
deriving DecidableEq, Repr

/-- `src/pipeline/executor.py` `PipelineResult` (`backtest_result` kept
without the post-hoc `model_metadata`, see `BacktestResult`). -/
structure PipelineResult where
  steps : List StepLog := []
  forecast_results : List ForecastResult := []
  revenue_results : List ForecastResult := []
  backtest_result : Option BacktestResult := none
  total_products : ℕ := 0
  status : StepStatus := .PENDING
deriving DecidableEq, Repr

/-- `src/pipeline/executor.py` `PipelineConfig`. -/
structure PipelineConfig where
  horizonte_semanas : ℕ := 13
  include_revenue : Bool := true
  include_backtest : Bool := true
  holdout_weeks : ℕ := 13
deriving DecidableEq, Repr

/-- The fixed `model_steps` table of `ForecastPipeline.execute`. -/
def model_steps : List (ℕ × String × List String) :=
  [(3, "execute_tft", ["TFT", "TFT_REVENUE"]),
   (4, "execute_ets", ["ETS"]),
   (5, "execute_croston_tsb", ["CROSTON", "TSB", "SBA"]),
   (6, "execute_lgbm_ensemble", ["LGBM", "ENSEMBLE"])]

/-- The inner per-model loop of one model-execution step (steps 3-6) of
`ForecastPipeline.execute`: models whose segment or instance is missing are
skipped; a successful `predict` extends the accumulated forecasts and the
step's product count; the first exception stops the loop immediately,
keeping the forecasts accumulated so far and recording the message. -/
def runStepModels (segments : List (String × SkuSegment)) (models : List (String × PModel))
    (horizonte_semanas : ℕ) : List String → List ForecastResult × ℕ × Option String
  | [] => ([], 0, none)
  | model_name :: rest =>
    match segments.lookup model_name with
    | none => runStepModels segments models horizonte_semanas rest
    | some segment =>
      match models.lookup model_name with
      | none => runStepModels segments models horizonte_semanas rest
      | some model =>
        match model.predict segment.produto_ids horizonte_semanas with
        | .error e => ([], 0, some e)
        | .ok forecasts =>
          let r := runStepModels segments models horizonte_semanas rest
          (forecasts ++ r.1, segment.produto_ids.length + r.2.1, r.2.2)

/-- Step 7 of `ForecastPipeline.execute`: revenue quantiles = volume
quantiles times unit price, rounded to 2 decimal places; forecasts without a
price or without quantiles are skipped. Returns the revenue results and the
count (`revenue_count`). -/
def revenueResults (prices_by_product : List (String × ℚ))
    (forecast_results : List ForecastResult) : List ForecastResult :=
  forecast_results.filterMap (fun fr =>
    match prices_by_product.lookup fr.produto_id with
    | none => none
    | some price =>
      if fr.quantiles = [] then none
      else some
        { produto_id := fr.produto_id
          model_name := fr.model_name ++ "_REVENUE"
          quantiles := fr.quantiles.map (fun q =>
            { p10 := roundTo 2 (q.p10 * price)
              p25 := roundTo 2 (q.p25 * price)
              p50 := roundTo 2 (q.p50 * price)
              p75 := roundTo 2 (q.p75 * price)
              p90 := roundTo 2 (q.p90 * price) }) })

/-- `ForecastPipeline.execute` (`src/pipeline/executor.py`).

`segResult` is the outcome of the injected segmenter call
`self._segmenter.segment(classifications, weeks_by_product=...)` of step 2
(`Except.error` when it raises). The `progress_callback` side channel emits
events only and is not part of the returned result, so it is not modelled.
Step 8 constructs `Backtester(holdout_weeks=config.holdout_weeks)`, whose
`baseline_window` keeps its default 12. -/
def ForecastPipeline.execute (models : List (String × PModel))
    (segResult : Except String (List (String × SkuSegment)))
    (series_by_product : Series) (prices_by_product : List (String × ℚ))
    (class_by_product : List (String × String)) (config : PipelineConfig) :
    PipelineResult :=
  let step1 : StepLog :=
    { step_number := 1, step_name := "load_data", status := .COMPLETED,
      products_processed := series_by_product.length }
  match segResult with
  | .error e =>
    { steps := [step1,
        { step_number := 2, step_name := "segment_skus", status := .FAILED,
          error_message := some e }],
      status := .FAILED }
  | .ok segments =>
    let total_products := (segments.map (fun s => s.2.produto_ids.length)).sum
    let step2 : StepLog :=
      { step_number := 2, step_name := "segment_skus", status := .COMPLETED,
        products_processed := total_products }
    let stepOutcomes := model_steps.map (fun t =>
      let r := runStepModels segments models config.horizonte_semanas t.2.2
      ({ step_number := t.1, step_name := t.2.1,
         status := if r.2.2.isSome then .FAILED
           else if 0 < r.2.1 then .COMPLETED else .SKIPPED,
         products_processed := r.2.1, error_message := r.2.2 : StepLog}, r.1))
    let modelLogs := stepOutcomes.map (fun o => o.1)
    let forecast_results := (stepOutcomes.map (fun o => o.2)).flatten
    let revPart : Option (List ForecastResult) :=
      if config.include_revenue && !prices_by_product.isEmpty then
        some (revenueResults prices_by_product forecast_results)
      else none
    let revenue_results := revPart.getD []
    let step7 : StepLog :=
      { step_number := 7, step_name := "calculate_revenue",
        status := if revPart.isSome then .COMPLETED else .SKIPPED,
        products_processed := (revPart.map (fun revs => revs.length)).getD 0 }
    let all_pids := (segments.map (fun s => s.2.produto_ids)).flatten
    let btPart : Option (Except String BacktestResult) :=
      if config.include_backtest && !series_by_product.isEmpty && decide (0 < total_products) then
        some (Backtester.run (models.map (fun m => (m.1, m.2.backtest))) all_pids
          series_by_product class_by_product config.holdout_weeks 12)
      else none
    let step8 : StepLog :=
      { step_number := 8, step_name := "calculate_metrics",
        status := match btPart with
          | none => .SKIPPED
          | some (.ok _) => .COMPLETED
          | some (.error _) => .FAILED,
        products_processed := match btPart with
          | some (.ok bt) => bt.products_tested
          | _ => 0,
        error_message := match btPart with
          | some (.error e) => some e
          | _ => none }
    let backtest_result : Option BacktestResult := match btPart with
      | some (.ok bt) => some bt
      | _ => none
    let step9 : StepLog :=
      { step_number := 9, step_name := "collect_results", status := .COMPLETED,
        products_processed := forecast_results.length }
    let step10 : StepLog :=
      { step_number := 10, step_name := "finalize", status := .COMPLETED }
    { steps := [step1, step2] ++ modelLogs ++ [step7, step8, step9, step10]
      forecast_results := forecast_results
      revenue_results := revenue_results
      backtest_result := backtest_result
      total_products := total_products
      status := .COMPLETED }

/-- C2: with at least one per-product metric for the model under evaluation
and `champion_mape = None`, `ChampionChallengerService.evaluate` promotes
(`promoted = true`) with the auto-promotion reason, regardless of how large
the challenger's own average MAPE is (the metrics list is universally
quantified). -/
theorem C2_auto_promotion (backtest_result : BacktestResult) (model_name : String)
    (metrics : List (String × BacktestMetrics))
    (hlk : backtest_result.per_product.lookup model_name = some metrics)
    (hne : metrics ≠ []) :
    (ChampionChallengerService.evaluate backtest_result model_name none).promoted = true ∧
    (ChampionChallengerService.evaluate backtest_result model_name none).reason =
      "No existing champion — auto-promoted" := by
  unfold ChampionChallengerService.evaluate
  rw [hlk]
  simp [Option.getD, hne]

/-- Witness for C2 at a concrete input: a challenger whose only product has
MAPE 999999 is still auto-promoted when no champion exists. -/
theorem C2_auto_promotion_witness :
    (ChampionChallengerService.evaluate
      { per_product := [("TFT", [("p1", { mape := 999999, mae := 0, bias := 0 })])] }
      "TFT" none).promoted = true ∧
    (ChampionChallengerService.evaluate
      { per_product := [("TFT", [("p1", { mape := 999999, mae := 0, bias := 0 })])] }
      "TFT" none).reason = "No existing champion — auto-promoted" :=
  C2_auto_promotion _ "TFT" [("p1", { mape := 999999, mae := 0, bias := 0 })] rfl
    (by decide)

/-- C7: `ModelRegistry.select_model` is deterministic (equal inputs give
equal outputs), and whenever `modelo_override` is present the selection is
exactly `(override, "NAIVE")` with no ensemble — for every class, pattern
and weeks-of-data value, including below the 40-week minimum. -/
theorem C7_registry_override (classe_abc classe' : ClasseABC)
    (padrao_demanda padrao' : PadraoDemanda) (o o' : Option String) (w w' : Option ℕ)
    (hc : classe_abc = classe') (hp : padrao_demanda = padrao') (ho : o = o') (hw : w = w') :
    ModelRegistry.select_model classe_abc padrao_demanda o w =
      ModelRegistry.select_model classe' padrao' o' w' ∧
    ∀ m : String, ModelRegistry.select_model classe_abc padrao_demanda (some m) w =
      { primary := m, fallback := "NAIVE", ensemble := false, ensemble_weights := none } := by
  subst hc hp ho hw
  exact ⟨rfl, fun m => rfl⟩

/-- Witness for C7 at a concrete input: override "LGBM" wins even for a
class-A regular SKU with only 10 weeks of data. -/
theorem C7_registry_override_witness :
    ModelRegistry.select_model .A .REGULAR (some "LGBM") (some 10) =
      ModelRegistry.select_model .A .REGULAR (some "LGBM") (some 10) ∧
    ∀ m : String, ModelRegistry.select_model .A .REGULAR (some m) (some 10) =
      { primary := m, fallback := "NAIVE", ensemble := false, ensemble_weights := none } :=
  C7_registry_override .A .A .REGULAR .REGULAR (some "LGBM") (some "LGBM")
    (some 10) (some 10) rfl rfl rfl rfl

/-- C10: when step 2 (segmentation) raises, `ForecastPipeline.execute`
returns early with exactly the two step logs (load_data COMPLETED,
segment_skus FAILED with the message), no forecasts, and overall status
FAILED; when segmentation succeeds the overall status is COMPLETED no
matter what the models do (models, and hence any FAILED model/metrics
steps, are universally quantified). -/
theorem C10_overall_status (models : List (String × PModel))
    (segments : List (String × SkuSegment)) (series_by_product : Series)
    (prices_by_product : List (String × ℚ)) (class_by_product : List (String × String))
    (config : PipelineConfig) (e : String) :
    (ForecastPipeline.execute models (.error e) series_by_product prices_by_product
      class_by_product config).status = .FAILED ∧
    (ForecastPipeline.execute models (.error e) series_by_product prices_by_product
      class_by_product config).steps =
      [{ step_number := 1, step_name := "load_data", status := .COMPLETED,
         products_processed := series_by_product.length },
       { step_number := 2, step_name := "segment_skus", status := .FAILED,
         error_message := some e }] ∧
    (ForecastPipeline.execute models (.error e) series_by_product prices_by_product
      class_by_product config).forecast_results = [] ∧
    (ForecastPipeline.execute models (.ok segments) series_by_product prices_by_product
      class_by_product config).status = .COMPLETED :=
  ⟨rfl, rfl, rfl, rfl⟩

/-- C8: per requested product, `EnsembleModel.predict` emits an
empty-quantile result whenever either sub-model has no result or empty
quantiles for that product; otherwise every quantile level at every horizon
step of the produced (min-length) list is the weighted average of the two
sub-model values at that level and step, rounded to 2 decimal places; and
the blend of p50 values 100 and 90 under the default weights 0.6/0.4 is
exactly 96. -/
theorem C8_ensemble_blend (tft_results lgbm_results : List ForecastResult)
    (produto_ids : List String) (w_tft w_lgbm : ℚ) (pid : String)
    (hmem : pid ∈ produto_ids) :
    EnsembleModel.predictFor tft_results lgbm_results w_tft w_lgbm pid ∈
      EnsembleModel.predict tft_results lgbm_results produto_ids w_tft w_lgbm
  ∧ (EnsembleModel.predictFor tft_results lgbm_results w_tft w_lgbm pid).produto_id = pid
  ∧ (findResult tft_results pid = none →
      (EnsembleModel.predictFor tft_results lgbm_results w_tft w_lgbm pid).quantiles = [])
  ∧ (findResult lgbm_results pid = none →
      (EnsembleModel.predictFor tft_results lgbm_results w_tft w_lgbm pid).quantiles = [])
  ∧ (∀ tr, findResult tft_results pid = some tr → tr.quantiles = [] →
      (EnsembleModel.predictFor tft_results lgbm_results w_tft w_lgbm pid).quantiles = [])
  ∧ (∀ lr, findResult lgbm_results pid = some lr → lr.quantiles = [] →
      (EnsembleModel.predictFor tft_results lgbm_results w_tft w_lgbm pid).quantiles = [])
  ∧ (∀ tr lr, findResult tft_results pid = some tr → findResult lgbm_results pid = some lr →
      tr.quantiles ≠ [] → lr.quantiles ≠ [] →
      (EnsembleModel.predictFor tft_results lgbm_results w_tft w_lgbm pid).quantiles.length =
        min tr.quantiles.length lr.quantiles.length ∧
      ∀ i, i < min tr.quantiles.length lr.quantiles.length →
        ((EnsembleModel.predictFor tft_results lgbm_results w_tft w_lgbm pid).quantiles.getD i
            default).p50 =
          roundTo 2 ((tr.quantiles.getD i default).p50 * w_tft +
            (lr.quantiles.getD i default).p50 * w_lgbm) ∧
        (EnsembleModel.predictFor tft_results lgbm_results w_tft w_lgbm pid).quantiles.getD i
            default =
          weightedQuantile (tr.quantiles.getD i default) (lr.quantiles.getD i default)
            w_tft w_lgbm)
  ∧ blendQ 100 90 0.6 0.4 = 96 := by
  refine ⟨List.mem_map_of_mem _ hmem, ?_, ?_, ?_, ?_, ?_, ?_, ?_⟩
  · unfold EnsembleModel.predictFor
    rcases h1 : findResult tft_results pid with _ | tr <;>
      rcases h2 : findResult lgbm_results pid with _ | lr <;> simp
    split <;> rfl
  · intro h1
    unfold EnsembleModel.predictFor
    rw [h1]
  · intro h2
    unfold EnsembleModel.predictFor
    rw [h2]
    rcases findResult tft_results pid with _ | tr <;> rfl
  · intro tr h1 htr
    unfold EnsembleModel.predictFor
    rw [h1]
    rcases findResult lgbm_results pid with _ | lr
    · rfl
    · dsimp only
      rw [if_pos (Or.inl htr)]
  · intro lr h2 hlr
    unfold EnsembleModel.predictFor
    rw [h2]
    rcases findResult tft_results pid with _ | tr
    · rfl
    · dsimp only
      rw [if_pos (Or.inr hlr)]
  · intro tr lr h1 h2 htr hlr
    unfold EnsembleModel.predictFor
    rw [h1, h2]
    dsimp only
    rw [if_neg (by simp [htr, hlr])]
    constructor
    · simp
    · intro i hi
      constructor
      · simp [List.getD, List.getElem?_map, List.getElem?_range hi, weightedQuantile, blendQ]
      · simp [List.getD, List.getElem?_map, List.getElem?_range hi, weightedQuantile]
  · unfold blendQ roundTo rhalfEven
    norm_num

/-- Concrete TFT sub-model output used by the C8 witness. -/
def c8TftOut : List ForecastResult :=
  [{ produto_id := "p1", model_name := "TFT",
     quantiles := [{ p10 := 100, p25 := 100, p50 := 100, p75 := 100, p90 := 100 }] }]

/-- Concrete LGBM sub-model output used by the C8 witness. -/
def c8LgbmOut : List ForecastResult :=
  [{ produto_id := "p1", model_name := "LGBM",
     quantiles := [{ p10 := 90, p25 := 90, p50 := 90, p75 := 90, p90 := 90 }] }]

/-- Witness for C8 at a concrete input: one product, sub-model p50 values
100 and 90 with weights 0.6/0.4. -/
theorem C8_ensemble_blend_witness :
    EnsembleModel.predictFor c8TftOut c8LgbmOut 0.6 0.4 "p1" ∈
      EnsembleModel.predict c8TftOut c8LgbmOut ["p1"] 0.6 0.4 ∧
    blendQ 100 90 0.6 0.4 = 96 :=
  ⟨(C8_ensemble_blend c8TftOut c8LgbmOut ["p1"] 0.6 0.4 "p1" (by decide)).1,
   (C8_ensemble_blend [] [] ["p1"] 0.6 0.4 "p1" (by decide)).2.2.2.2.2.2.2⟩

/-- C1 (amended): with at least one per-product metric and a non-None
champion MAPE, `evaluate` promotes iff the challenger's average per-product
MAPE, rounded to 4 decimal places as stored in `new_mape`
(`round(sum(..)/len(..), 4)` in the source), is strictly below
`champion_mape`; a tie (rounded average = champion) does not promote; and in
both branches the reason string states both MAPE values formatted to 2
decimal places, each followed by a '%'. -/
theorem C1_promotion_rule (backtest_result : BacktestResult) (model_name : String)
    (cm : ℚ) (metrics : List (String × BacktestMetrics))
    (hlk : backtest_result.per_product.lookup model_name = some metrics)
    (hne : metrics ≠ []) :
    ((ChampionChallengerService.evaluate backtest_result model_name (some cm)).promoted = true ↔
      roundTo 4 ((metrics.map (fun p => p.2.mape)).sum / metrics.length) < cm)
  ∧ (roundTo 4 ((metrics.map (fun p => p.2.mape)).sum / metrics.length) = cm →
      (ChampionChallengerService.evaluate backtest_result model_name (some cm)).promoted = false)
  ∧ (ChampionChallengerService.evaluate backtest_result model_name (some cm)).new_mape =
      roundTo 4 ((metrics.map (fun p => p.2.mape)).sum / metrics.length)
  ∧ (ChampionChallengerService.evaluate backtest_result model_name (some cm)).reason =
      (if roundTo 4 ((metrics.map (fun p => p.2.mape)).sum / metrics.length) < cm then
        "New MAPE (" ++ fmt2 (roundTo 4 ((metrics.map (fun p => p.2.mape)).sum / metrics.length))
          ++ "%) < Champion MAPE (" ++ fmt2 cm ++ "%)"
      else
        "New MAPE (" ++ fmt2 (roundTo 4 ((metrics.map (fun p => p.2.mape)).sum / metrics.length))
          ++ "%) >= Champion MAPE (" ++ fmt2 cm ++ "%)") := by
  unfold ChampionChallengerService.evaluate
  rw [hlk]
  simp only [Option.getD_some, if_neg hne]
  by_cases hcmp : roundTo 4 ((metrics.map (fun p => p.2.mape)).sum / metrics.length) < cm
  · simp [hcmp]
    exact ne_of_lt hcmp
  · simp [hcmp]

/-- Concrete challenger metrics (MAPEs 5 and 7) for the C1 witness. -/
def c1Metrics : List (String × BacktestMetrics) :=
  [("p1", { mape := 5, mae := 0, bias := 0 }), ("p2", { mape := 7, mae := 0, bias := 0 })]

/-- Concrete backtest result for the C1 witness. -/
def c1Bt : BacktestResult := { per_product := [("TFT", c1Metrics)] }

/-- Witness for C1 (amended) at a concrete input: challenger MAPEs 5 and 7
against champion MAPE 10. -/
theorem C1_promotion_rule_witness :
    ((ChampionChallengerService.evaluate c1Bt "TFT" (some 10)).promoted = true ↔
      roundTo 4 ((c1Metrics.map (fun p => p.2.mape)).sum / c1Metrics.length) < 10)
  ∧ (roundTo 4 ((c1Metrics.map (fun p => p.2.mape)).sum / c1Metrics.length) = 10 →
      (ChampionChallengerService.evaluate c1Bt "TFT" (some 10)).promoted = false) :=
  ⟨(C1_promotion_rule c1Bt "TFT" 10 c1Metrics rfl (by decide)).1,
   (C1_promotion_rule c1Bt "TFT" 10 c1Metrics rfl (by decide)).2.1⟩

/-- C1 counterexample: the claim as stated compares the exact average with
`champion_mape`, but the source rounds the average to 4 decimal places
first. With a single product of MAPE 9.99996 and champion MAPE 9.99998 the
exact average (9.99996) is strictly below the champion, yet
`round(9.99996, 4) = 10.0` is not, so `promoted = false`. -/
theorem C1_counterexample :
    (([("p1", ({ mape := 9.99996, mae := 0, bias := 0 } : BacktestMetrics))].map
        (fun p => p.2.mape)).sum /
      ([("p1", ({ mape := 9.99996, mae := 0, bias := 0 } : BacktestMetrics))] :
        List (String × BacktestMetrics)).length = 9.99996)
  ∧ (9.99996 : ℚ) < 9.99998
  ∧ (ChampionChallengerService.evaluate
      { per_product := [("M", [("p1", { mape := 9.99996, mae := 0, bias := 0 })])] }
      "M" (some 9.99998)).promoted = false := by
  refine ⟨by norm_num, by norm_num, ?_⟩
  unfold ChampionChallengerService.evaluate
  norm_num [List.lookup, roundTo, rhalfEven]

theorem roundTo_zero (n : ℕ) : roundTo n 0 = 0 := by
  norm_num [roundTo, rhalfEven]

theorem mapeOf_all_zero (actual predicted : List ℚ) (hz : ∀ a ∈ actual, a = 0) :
    mapeOf actual predicted = 0 := by
  unfold mapeOf
  rw [if_pos]
  rw [List.filter_eq_nil_iff]
  intro p hp
  have hp1 : p.1 ∈ actual := (List.of_mem_zip hp).1
  simp [hz p.1 hp1]

/-- The metrics entry `NaiveModel.backtest` produces for a product with
enough history. -/
def naiveEntry (s : List ℚ) (holdout_weeks : ℕ) : BacktestMetrics :=
  { mape := roundTo 2 (mapeOf (takeLastPy s holdout_weeks)
      (List.replicate holdout_weeks ((dropLastPy s holdout_weeks).getLast?.getD 0)))
    mae := roundTo 2 (maeOf (takeLastPy s holdout_weeks)
      (List.replicate holdout_weeks ((dropLastPy s holdout_weeks).getLast?.getD 0)))
    bias := roundTo 2 (biasOf (takeLastPy s holdout_weeks)
      (List.replicate holdout_weeks ((dropLastPy s holdout_weeks).getLast?.getD 0))) }

theorem naive_backtest_lookup (produto_ids : List String) (holdout_weeks : ℕ)
    (series_by_product : Series) (pid : String) (s : List ℚ)
    (hs : series_by_product.lookup pid = some s) (hlen : holdout_weeks < s.length)
    (hmem : pid ∈ produto_ids) :
    (NaiveModel.backtest produto_ids holdout_weeks series_by_product).lookup pid =
      some (naiveEntry s holdout_weeks) := by
  induction produto_ids with
  | nil => cases hmem
  | cons x rest ih =>
    unfold NaiveModel.backtest
    rw [List.filterMap_cons]
    have htail : List.filterMap _ rest =
        NaiveModel.backtest rest holdout_weeks series_by_product := rfl
    by_cases hx : x = pid
    · subst hx
      rw [hs]
      dsimp only
      rw [if_neg (Nat.not_le.mpr hlen)]
      rw [List.lookup_cons]
      simp [naiveEntry]
    · rcases List.mem_cons.mp hmem with heq | hmem
      · exact absurd heq.symm hx
      · rcases hout : series_by_product.lookup x with _ | s'
        · dsimp only
          rw [htail]
          exact ih hmem
        · dsimp only
          by_cases hlen' : s'.length ≤ holdout_weeks
          · rw [if_pos hlen']
            rw [htail]
            exact ih hmem
          · rw [if_neg hlen']
            rw [List.lookup_cons]
            have hbx : (pid == x) = false := by
              simp [Ne.symm hx]
            rw [hbx]
            rw [htail]
            exact ih hmem

/-- C6: when every holdout actual is zero the stored MAPE is exactly 0 (not
NaN or an error — the rational embedding is total), both for the baseline
metric computation and for `NaiveModel.backtest`; when some holdout actual
is nonzero, the MAPE is the mean absolute percentage error over exactly the
holdout points with nonzero actual, rounded to 2 decimals. -/
theorem C6_mape_zero_policy :
    (∀ (series : List ℚ) (h w : ℕ), (∀ a ∈ takeLastPy series h, a = 0) →
      (compute_baseline_metrics series h w).mape = 0)
  ∧ (∀ (series : List ℚ) (h w : ℕ),
      (∃ p ∈ (takeLastPy series h).zip (moving_average_forecast series h w), p.1 ≠ 0) →
      (compute_baseline_metrics series h w).mape =
        roundTo 2 (mean ((((takeLastPy series h).zip
          (moving_average_forecast series h w)).filter (fun p => decide (p.1 ≠ 0))).map
            (fun p => |p.1 - p.2| / |p.1|)) * 100))
  ∧ (∀ (produto_ids : List String) (h : ℕ) (series_by_product : Series) (pid : String)
      (s : List ℚ), series_by_product.lookup pid = some s → h < s.length →
      pid ∈ produto_ids → (∀ a ∈ takeLastPy s h, a = 0) →
      ∃ m, (NaiveModel.backtest produto_ids h series_by_product).lookup pid = some m ∧
        m.mape = 0) := by
  refine ⟨?_, ?_, ?_⟩
  · intro series h w hz
    unfold compute_baseline_metrics
    simp only
    rw [mapeOf_all_zero _ _ hz, roundTo_zero]
  · intro series h w hex
    obtain ⟨p, hp, hp1⟩ := hex
    unfold compute_baseline_metrics
    simp only
    unfold mapeOf
    rw [if_neg]
    exact List.ne_nil_of_mem (List.mem_filter.mpr ⟨hp, by simpa using hp1⟩)
  · intro produto_ids h series_by_product pid s hs hlen hmem hz
    refine ⟨naiveEntry s h, naive_backtest_lookup produto_ids h series_by_product pid s hs
      hlen hmem, ?_⟩
    unfold naiveEntry
    simp only
    rw [mapeOf_all_zero _ _ hz, roundTo_zero]

/-- Witness for C6 at concrete inputs: an all-zero holdout gives MAPE 0 for
the baseline and for the naive backtest; a nonzero holdout point is scored
by the nonzero-only MAPE formula. -/
theorem C6_mape_zero_policy_witness :
    (compute_baseline_metrics [0, 0] 1 12).mape = 0
  ∧ (compute_baseline_metrics [0, 3] 1 12).mape =
      roundTo 2 (mean (((((takeLastPy [0, 3] 1).zip
        (moving_average_forecast [0, 3] 1 12)).filter (fun p => decide (p.1 ≠ 0))).map
          (fun p => |p.1 - p.2| / |p.1|))) * 100)
  ∧ ∃ m, (NaiveModel.backtest ["p1"] 1 [("p1", [1, 0])]).lookup "p1" = some m ∧ m.mape = 0 :=
  ⟨C6_mape_zero_policy.1 [0, 0] 1 12 (by decide),
   C6_mape_zero_policy.2.1 [0, 3] 1 12 ⟨(3, 0),
     by norm_num [takeLastPy, moving_average_forecast, dropLastPy, mean], by norm_num⟩,
   C6_mape_zero_policy.2.2 ["p1"] 1 [("p1", [1, 0])] "p1" [1, 0] rfl (by decide) (by decide)
     (by decide)⟩

theorem runModels_keys (bts : List (String × BacktestFn)) (valid : List String)
    (holdout : ℕ) (series : Series) (classmap : List (String × String))
    (baseline : List (String × BacktestMetrics))
    (pp : List (String × List (String × BacktestMetrics)))
    (pc : List (String × List (String × ClassMetrics))) (comps : List BaselineComparison)
    (hrm : Backtester.runModels bts valid holdout series classmap baseline = .ok (pp, pc, comps))
    (hcontract : ∀ name bt, (name, bt) ∈ bts → ∀ res, bt valid holdout series = .ok res →
      ∀ q m, (q, m) ∈ res → q ∈ valid) :
    ∀ entry ∈ pp, ∀ q m, (q, m) ∈ entry.2 → q ∈ valid := by
  induction bts generalizing pp pc comps with
  | nil =>
    simp only [Backtester.runModels, Except.ok.injEq, Prod.mk.injEq] at hrm
    obtain ⟨rfl, -, -⟩ := hrm
    intro entry hentry
    cases hentry
  | cons hd tl ih =>
    obtain ⟨name, bt⟩ := hd
    simp only [Backtester.runModels] at hrm
    rcases hbt : bt valid holdout series with e | res <;> rw [hbt] at hrm
    · cases hrm
    · rcases hrec : Backtester.runModels tl valid holdout series classmap baseline
        with e | ⟨pp', pc', comps'⟩ <;> rw [hrec] at hrm
      · cases hrm
      · dsimp only at hrm
        have hcontract' : ∀ name bt, (name, bt) ∈ tl → ∀ res,
            bt valid holdout series = .ok res → ∀ q m, (q, m) ∈ res → q ∈ valid :=
          fun n b hb => hcontract n b (List.mem_cons_of_mem _ hb)
        by_cases hres : res = []
        · rw [if_pos hres] at hrm
          simp only [Except.ok.injEq, Prod.mk.injEq] at hrm
          obtain ⟨rfl, -, -⟩ := hrm
          exact ih pp' pc' comps' hrec hcontract'
        · rw [if_neg hres] at hrm
          simp only [Except.ok.injEq, Prod.mk.injEq] at hrm
          obtain ⟨rfl, -, -⟩ := hrm
          intro entry hentry q m hqm
          rcases List.mem_cons.mp hentry with heq | htl
          · subst heq
            exact hcontract name bt (List.mem_cons_self _ _) res hbt q m hqm
          · exact ih pp' pc' comps' hrec hcontract' entry htl q m hqm

/-- C4: products whose series is missing or no longer than the holdout never
appear as keys in any `per_product` entry (baseline included, via the
model-backtest key contract of §4.3), `products_tested` counts exactly the
surviving products, and with no survivor the result is entirely empty. -/
theorem C4_backtester_filter (bts : List (String × BacktestFn)) (produto_ids : List String)
    (series_by_product : Series) (class_by_product : List (String × String))
    (holdout_weeks baseline_window : ℕ) (r : BacktestResult)
    (hr : Backtester.run bts produto_ids series_by_product class_by_product holdout_weeks
      baseline_window = .ok r)
    (hcontract : ∀ name bt, (name, bt) ∈ bts → ∀ res,
      bt (produto_ids.filter (survives series_by_product holdout_weeks)) holdout_weeks
        series_by_product = .ok res →
      ∀ q m, (q, m) ∈ res → q ∈ produto_ids.filter (survives series_by_product holdout_weeks)) :
    r.products_tested = (produto_ids.filter (survives series_by_product holdout_weeks)).length
  ∧ (produto_ids.filter (survives series_by_product holdout_weeks) = [] →
      r = { per_product := [], per_class := [], baseline_comparisons := [], products_tested := 0 })
  ∧ ∀ pid, survives series_by_product holdout_weeks pid = false →
      ∀ entry ∈ r.per_product, ∀ m, (pid, m) ∉ entry.2 := by
  simp only [Backtester.run] at hr
  by_cases hv : produto_ids.filter (survives series_by_product holdout_weeks) = []
  · rw [if_pos hv] at hr
    simp only [Except.ok.injEq] at hr
    subst hr
    refine ⟨by simp [hv], fun _ => rfl, ?_⟩
    intro pid _ entry hentry
    cases hentry
  · rw [if_neg hv] at hr
    rcases hrm : Backtester.runModels bts
        (produto_ids.filter (survives series_by_product holdout_weeks)) holdout_weeks
        series_by_product class_by_product
        ((produto_ids.filter (survives series_by_product holdout_weeks)).map (fun pid =>
          (pid, compute_baseline_metrics ((series_by_product.lookup pid).getD [])
            holdout_weeks baseline_window)))
        with e | ⟨pp, pc, comps⟩ <;> rw [hrm] at hr
    · cases hr
    · simp only [Except.ok.injEq] at hr
      subst hr
      refine ⟨rfl, fun h => absurd h hv, ?_⟩
      intro pid hfalse entry hentry m hpm
      have hnm : pid ∉ produto_ids.filter (survives series_by_product holdout_weeks) := by
        intro hin
        rw [List.mem_filter.mp hin |>.2] at hfalse
        cases hfalse
      rcases List.mem_cons.mp hentry with heq | htl
      · subst heq
        simp only at hpm
        obtain ⟨q, hq, hqe⟩ := List.mem_map.mp hpm
        exact hnm ((Prod.mk.injEq _ _ _ _ ▸ hqe).1 ▸ hq)
      · exact hnm (runModels_keys bts _ holdout_weeks series_by_product class_by_product _
          pp pc comps hrm hcontract entry htl pid m hpm)

/-- Witness for C4 at a concrete input: one requested product whose series
(length 1) is not longer than the holdout (13); the result is entirely
empty. -/
theorem C4_backtester_filter_witness :
    ({} : BacktestResult).products_tested =
      (["p1"].filter (survives [("p1", [5])] 13)).length
  ∧ (["p1"].filter (survives [("p1", [5])] 13) = [] →
      ({} : BacktestResult) =
        { per_product := [], per_class := [], baseline_comparisons := [], products_tested := 0 })
  ∧ ∀ pid, survives [("p1", [5])] 13 pid = false →
      ∀ entry ∈ ({} : BacktestResult).per_product, ∀ m, (pid, m) ∉ entry.2 :=
  C4_backtester_filter [] ["p1"] [("p1", [5])] [] 13 12 {} rfl
    (fun _ _ h => absurd h (List.not_mem_nil _))

/-- C5: with at least one surviving product, `Backtester.run` puts under the
key `"BASELINE"` exactly one `compute_baseline_metrics` entry per surviving
product (in `per_product`) and a per-class aggregate (in `per_class`); and
the baseline prediction is the mean of the last
`min(baseline_window, training length)` training points (training = series
minus the holdout), held constant across the whole holdout horizon. -/
theorem C5_baseline_present (bts : List (String × BacktestFn)) (produto_ids : List String)
    (series_by_product : Series) (class_by_product : List (String × String))
    (holdout_weeks baseline_window : ℕ) (r : BacktestResult)
    (hr : Backtester.run bts produto_ids series_by_product class_by_product holdout_weeks
      baseline_window = .ok r)
    (hne : produto_ids.filter (survives series_by_product holdout_weeks) ≠ []) :
    r.per_product.lookup "BASELINE" =
      some ((produto_ids.filter (survives series_by_product holdout_weeks)).map (fun pid =>
        (pid, compute_baseline_metrics ((series_by_product.lookup pid).getD [])
          holdout_weeks baseline_window)))
  ∧ r.per_class.lookup "BASELINE" =
      some (aggregate_by_class
        ((produto_ids.filter (survives series_by_product holdout_weeks)).map (fun pid =>
          (pid, compute_baseline_metrics ((series_by_product.lookup pid).getD [])
            holdout_weeks baseline_window))) class_by_product)
  ∧ ∀ s : List ℚ, moving_average_forecast s holdout_weeks baseline_window =
      List.replicate holdout_weeks
        (mean (takeLastPy (dropLastPy s holdout_weeks)
          (min baseline_window (dropLastPy s holdout_weeks).length))) := by
  simp only [Backtester.run] at hr
  rw [if_neg hne] at hr
  rcases hrm : Backtester.runModels bts
      (produto_ids.filter (survives series_by_product holdout_weeks)) holdout_weeks
      series_by_product class_by_product
      ((produto_ids.filter (survives series_by_product holdout_weeks)).map (fun pid =>
        (pid, compute_baseline_metrics ((series_by_product.lookup pid).getD [])
          holdout_weeks baseline_window)))
      with e | ⟨pp, pc, comps⟩ <;> rw [hrm] at hr
  · cases hr
  · simp only [Except.ok.injEq] at hr
    subst hr
    refine ⟨?_, ?_, fun s => rfl⟩
    · rw [List.lookup_cons]
      simp
    · rw [List.lookup_cons]
      simp

/-- Concrete series map for the C5 witness. -/
def c5Series : Series := [("p1", [0, 0])]

/-- Concrete `Backtester.run` output for the C5 witness: a single product
with the all-zero series `[0, 0]` and holdout 1. -/
def c5R : BacktestResult :=
  { per_product := [("BASELINE", [("p1", ⟨0, 0, 0⟩)])]
    per_class := [("BASELINE", [("C", ⟨"C", 0, 0, 0, 1⟩)])]
    baseline_comparisons := []
    products_tested := 1 }

theorem c5R_run_eval : Backtester.run [] ["p1"] c5Series [] 1 12 = .ok c5R := by
  have h2 : compute_baseline_metrics [0, 0] 1 12 = ⟨0, 0, 0⟩ := by
    unfold compute_baseline_metrics moving_average_forecast mapeOf maeOf biasOf
    norm_num [takeLastPy, dropLastPy, mean, roundTo_zero]
  have h3 : aggregate_by_class [("p1", ⟨0, 0, 0⟩)] ([] : List (String × String)) =
      [("C", ⟨"C", 0, 0, 0, 1⟩)] := by
    unfold aggregate_by_class classOf
    norm_num [mean, roundTo_zero]
  simp only [Backtester.run, Backtester.runModels]
  norm_num [survives, c5Series, c5R, h2, h3]

/-- Witness for C5 at a concrete input: one surviving product with series
`[0, 0]` and holdout 1. -/
theorem C5_baseline_present_witness :
    c5R.per_product.lookup "BASELINE" =
      some ((["p1"].filter (survives c5Series 1)).map (fun pid =>
        (pid, compute_baseline_metrics ((c5Series.lookup pid).getD []) 1 12)))
  ∧ c5R.per_class.lookup "BASELINE" =
      some (aggregate_by_class
        ((["p1"].filter (survives c5Series 1)).map (fun pid =>
          (pid, compute_baseline_metrics ((c5Series.lookup pid).getD []) 1 12))) [])
  ∧ ∀ s : List ℚ, moving_average_forecast s 1 12 =
      List.replicate 1 (mean (takeLastPy (dropLastPy s 1) (min 12 (dropLastPy s 1).length))) :=
  C5_baseline_present [] ["p1"] c5Series [] 1 12 c5R c5R_run_eval (by decide)

/-- Observer for one iteration of the per-model loop of steps 3-6:
`none` when the model is skipped (`segment is None` or `model is None`),
otherwise the outcome of its `predict` call. -/
def modelOutcome (segments : List (String × SkuSegment)) (models : List (String × PModel))
    (horizonte_semanas : ℕ) (model_name : String) :
    Option (Except String (List ForecastResult)) :=
  match segments.lookup model_name with
  | none => none
  | some segment =>
    match models.lookup model_name with
    | none => none
    | some model => some (model.predict segment.produto_ids horizonte_semanas)

theorem runStepModels_stops (segments : List (String × SkuSegment))
    (models : List (String × PModel)) (horizonte_semanas : ℕ) (n : String)
    (seg : SkuSegment) (model : PModel) (e : String)
    (hseg : segments.lookup n = some seg) (hmod : models.lookup n = some model)
    (hpred : model.predict seg.produto_ids horizonte_semanas = .error e) :
    ∀ (pre post : List String),
      runStepModels segments models horizonte_semanas (pre ++ n :: post) =
        runStepModels segments models horizonte_semanas (pre ++ [n]) := by
  intro pre
  induction pre with
  | nil =>
    intro post
    simp only [List.nil_append]
    unfold runStepModels
    rw [hseg]
    dsimp only
    rw [hmod]
    dsimp only
    rw [hpred]
  | cons x pre ih =>
    intro post
    simp only [List.cons_append]
    unfold runStepModels
    cases hx : segments.lookup x with
    | none => exact ih post
    | some seg' =>
      dsimp only
      cases hm : models.lookup x with
      | none => exact ih post
      | some model' =>
        dsimp only
        cases hp : model'.predict seg'.produto_ids horizonte_semanas with
        | error e' => rfl
        | ok fss =>
          dsimp only
          rw [ih post]

theorem runStepModels_first_error (segments : List (String × SkuSegment))
    (models : List (String × PModel)) (horizonte_semanas : ℕ) :
    ∀ (pre : List String),
      (∀ x ∈ pre, ∀ e₀, modelOutcome segments models horizonte_semanas x ≠ some (.error e₀)) →
      ∀ (post : List String) (n : String) (seg : SkuSegment) (model : PModel) (e : String),
        segments.lookup n = some seg → models.lookup n = some model →
        model.predict seg.produto_ids horizonte_semanas = .error e →
        ∃ fs c, runStepModels segments models horizonte_semanas (pre ++ n :: post) =
          (fs, c, some e) := by
  intro pre
  induction pre with
  | nil =>
    intro _ post n seg model e hseg hmod hpred
    refine ⟨[], 0, ?_⟩
    simp only [List.nil_append]
    unfold runStepModels
    rw [hseg]
    dsimp only
    rw [hmod]
    dsimp only
    rw [hpred]
  | cons x pre ih =>
    intro hpass post n seg model e hseg hmod hpred
    have hpass' : ∀ y ∈ pre, ∀ e₀,
        modelOutcome segments models horizonte_semanas y ≠ some (.error e₀) :=
      fun y hy => hpass y (List.mem_cons_of_mem _ hy)
    obtain ⟨fs, c, hrec⟩ := ih hpass' post n seg model e hseg hmod hpred
    simp only [List.cons_append]
    unfold runStepModels
    cases hx : segments.lookup x with
    | none => exact ⟨fs, c, hrec⟩
    | some seg' =>
      dsimp only
      cases hm : models.lookup x with
      | none => exact ⟨fs, c, hrec⟩
      | some model' =>
        dsimp only
        cases hp : model'.predict seg'.produto_ids horizonte_semanas with
        | error e₀ =>
          exfalso
          apply hpass x (List.mem_cons_self _ _) e₀
          unfold modelOutcome
          rw [hx]
          dsimp only
          rw [hm]
          dsimp only
          rw [hp]
        | ok fss =>
          dsimp only
          refine ⟨fss ++ fs, seg'.produto_ids.length + c, ?_⟩
          rw [hrec]

/-- C3: if the per-model loop of a model-execution step (3-6) ends with an
exception message `e` (which happens exactly when the first non-skipped
model whose `predict` raises is reached — conjunct 4), that step's log is
FAILED with `error_message = e` and the count accumulated before the
failure, the loop result does not depend on the models listed after the
failing one (conjunct 3, so they are never invoked), and the pipeline still
appends logs for every step 1-10 in order. -/
theorem C3_step_failure (models : List (String × PModel))
    (segments : List (String × SkuSegment)) (series_by_product : Series)
    (prices_by_product : List (String × ℚ)) (class_by_product : List (String × String))
    (config : PipelineConfig) (k : ℕ) (nm : String) (L : List String)
    (hstep : (k, nm, L) ∈ model_steps) (fs : List ForecastResult) (c : ℕ) (e : String)
    (hrun : runStepModels segments models config.horizonte_semanas L = (fs, c, some e)) :
    ({ step_number := k, step_name := nm, status := .FAILED, products_processed := c,
       error_message := some e } : StepLog) ∈
      (ForecastPipeline.execute models (.ok segments) series_by_product prices_by_product
        class_by_product config).steps
  ∧ (ForecastPipeline.execute models (.ok segments) series_by_product prices_by_product
      class_by_product config).steps.map (fun sl => sl.step_number) =
      [1, 2, 3, 4, 5, 6, 7, 8, 9, 10]
  ∧ (∀ (pre post : List String) (n : String) (seg : SkuSegment) (model : PModel)
      (e' : String), segments.lookup n = some seg → models.lookup n = some model →
      model.predict seg.produto_ids config.horizonte_semanas = .error e' →
      runStepModels segments models config.horizonte_semanas (pre ++ n :: post) =
        runStepModels segments models config.horizonte_semanas (pre ++ [n]))
  ∧ (∀ (pre post : List String) (n : String) (seg : SkuSegment) (model : PModel)
      (e' : String),
      (∀ x ∈ pre, ∀ e₀, modelOutcome segments models config.horizonte_semanas x ≠
        some (.error e₀)) →
      segments.lookup n = some seg → models.lookup n = some model →
      model.predict seg.produto_ids config.horizonte_semanas = .error e' →
      ∃ fs₀ c₀, runStepModels segments models config.horizonte_semanas (pre ++ n :: post) =
        (fs₀, c₀, some e')) := by
  refine ⟨?_, ?_, ?_, ?_⟩
  · simp only [ForecastPipeline.execute]
    refine List.mem_append.mpr (Or.inl ?_)
    refine List.mem_append.mpr (Or.inr ?_)
    refine List.mem_map.mpr ⟨_, List.mem_map.mpr ⟨(k, nm, L), hstep, rfl⟩, ?_⟩
    rw [hrun]
    rfl
  · simp [ForecastPipeline.execute, model_steps]
  · intro pre post n seg model e' hseg hmod hpred
    exact runStepModels_stops segments models config.horizonte_semanas n seg model e'
      hseg hmod hpred pre post
  · intro pre post n seg model e' hpass hseg hmod hpred
    exact runStepModels_first_error segments models config.horizonte_semanas pre hpass
      post n seg model e' hseg hmod hpred

/-- Concrete segments for the C3 witness. -/
def c3Segments : List (String × SkuSegment) := [("TFT", ⟨"TFT", ["p1"]⟩)]

/-- Concrete models for the C3 witness: the TFT model raises "boom". -/
def c3Models : List (String × PModel) :=
  [("TFT", ⟨fun _ _ => .error "boom", fun _ _ _ => .ok []⟩)]

/-- Witness for C3 at a concrete input: TFT raises "boom" during step 3, the
step-3 log is FAILED with that message and all ten step logs are appended. -/
theorem C3_step_failure_witness :
    ({ step_number := 3, step_name := "execute_tft", status := .FAILED,
       products_processed := 0, error_message := some "boom" } : StepLog) ∈
      (ForecastPipeline.execute c3Models (.ok c3Segments) [] [] [] {}).steps
  ∧ (ForecastPipeline.execute c3Models (.ok c3Segments) [] [] [] {}).steps.map
      (fun sl => sl.step_number) = [1, 2, 3, 4, 5, 6, 7, 8, 9, 10] :=
  ⟨(C3_step_failure c3Models c3Segments [] [] [] {} 3 "execute_tft" ["TFT", "TFT_REVENUE"]
      (by decide) [] 0 "boom" rfl).1,
   (C3_step_failure c3Models c3Segments [] [] [] {} 3 "execute_tft" ["TFT", "TFT_REVENUE"]
      (by decide) [] 0 "boom" rfl).2.1⟩

theorem sorted_getD_le (s : List ℚ) (hs : List.Sorted (· ≤ ·) s) (i j : ℕ) (hij : i ≤ j)
    (hj : j < s.length) : s.getD i 0 ≤ s.getD j 0 := by
  have hi : i < s.length := lt_of_le_of_lt (Nat.lt_succ_iff.mp (Nat.lt_succ_of_le hij)) hj
  rw [List.getD_eq_getElem _ _ hi, List.getD_eq_getElem _ _ hj]
  rcases eq_or_lt_of_le hij with rfl | hlt
  · exact le_rfl
  · have := List.pairwise_iff_get.mp hs ⟨i, hi⟩ ⟨j, hj⟩ hlt
    simpa using this

theorem getD_succ_ge (s : List ℚ) (hs : List.Sorted (· ≤ ·) s) (i : ℕ) (hi : i < s.length) :
    s.getD i 0 ≤ s.getD (i + 1) (s.getD i 0) := by
  by_cases h : i + 1 < s.length
  · rw [List.getD_eq_getElem _ _ h, List.getD_eq_getElem _ _ hi]
    have := List.pairwise_iff_get.mp hs ⟨i, hi⟩ ⟨i + 1, h⟩ (by simp)
    simpa using this
  · rw [List.getD_eq_default _ _ (le_of_not_lt h)]

theorem interpAt_ge (s : List ℚ) (hs : List.Sorted (· ≤ ·) s) (pos : ℚ)
    (hlt : (⌊pos⌋).toNat < s.length) : s.getD (⌊pos⌋).toNat 0 ≤ interpAt s pos := by
  unfold interpAt
  have hfrac : 0 ≤ pos - ⌊pos⌋ := sub_nonneg.mpr (Int.floor_le pos)
  have hba : 0 ≤ s.getD ((⌊pos⌋).toNat + 1) (s.getD (⌊pos⌋).toNat 0) -
      s.getD (⌊pos⌋).toNat 0 := sub_nonneg.mpr (getD_succ_ge s hs _ hlt)
  exact le_add_of_nonneg_right (mul_nonneg hfrac hba)

theorem interpAt_le (s : List ℚ) (hs : List.Sorted (· ≤ ·) s) (pos : ℚ)
    (hlt : (⌊pos⌋).toNat < s.length) :
    interpAt s pos ≤ s.getD ((⌊pos⌋).toNat + 1) (s.getD (⌊pos⌋).toNat 0) := by
  unfold interpAt
  dsimp only
  have hfrac : pos - ⌊pos⌋ < 1 := by
    have := Int.lt_floor_add_one pos
    linarith
  have hba : s.getD (⌊pos⌋).toNat 0 ≤ s.getD ((⌊pos⌋).toNat + 1) (s.getD (⌊pos⌋).toNat 0) :=
    getD_succ_ge s hs _ hlt
  have key : (pos - ⌊pos⌋) * (s.getD ((⌊pos⌋).toNat + 1) (s.getD (⌊pos⌋).toNat 0) -
      s.getD (⌊pos⌋).toNat 0) ≤ 1 * (s.getD ((⌊pos⌋).toNat + 1) (s.getD (⌊pos⌋).toNat 0) -
      s.getD (⌊pos⌋).toNat 0) :=
    mul_le_mul_of_nonneg_right (le_of_lt hfrac) (sub_nonneg.mpr hba)
  linarith

theorem interpAt_mono (s : List ℚ) (hs : List.Sorted (· ≤ ·) s) (hne : s ≠ [])
    {p1 p2 : ℚ} (h0 : 0 ≤ p1) (h12 : p1 ≤ p2) (h2 : p2 ≤ (s.length : ℚ) - 1) :
    interpAt s p1 ≤ interpAt s p2 := by
  have hlen : 1 ≤ s.length := List.length_pos.mpr hne
  have hf2 : ⌊p2⌋ ≤ (s.length : ℤ) - 1 := by
    have hcast : ((s.length : ℚ) - 1) = (((s.length : ℤ) - 1 : ℤ) : ℚ) := by push_cast; ring
    have := Int.floor_mono h2
    rw [hcast, Int.floor_intCast] at this
    exact this
  have h0i : (0 : ℤ) ≤ ⌊p1⌋ := Int.floor_nonneg.mpr h0
  have h0i2 : (0 : ℤ) ≤ ⌊p2⌋ := le_trans h0i (Int.floor_mono h12)
  have hi2 : (⌊p2⌋).toNat < s.length := by omega
  have hi1 : (⌊p1⌋).toNat < s.length := by
    have := Int.floor_mono h12
    omega
  rcases lt_or_eq_of_le (Int.floor_mono h12) with hlt | heq
  · have hstep : (⌊p1⌋).toNat + 1 ≤ (⌊p2⌋).toNat := by omega
    have hstep' : (⌊p1⌋).toNat + 1 < s.length := lt_of_le_of_lt hstep hi2
    calc interpAt s p1
        ≤ s.getD ((⌊p1⌋).toNat + 1) (s.getD (⌊p1⌋).toNat 0) := interpAt_le s hs p1 hi1
      _ = s.getD ((⌊p1⌋).toNat + 1) 0 := by
          rw [List.getD_eq_getElem _ _ hstep', List.getD_eq_getElem _ _ hstep']
      _ ≤ s.getD (⌊p2⌋).toNat 0 := sorted_getD_le s hs _ _ hstep hi2
      _ ≤ interpAt s p2 := interpAt_ge s hs p2 hi2
  · unfold interpAt
    rw [← heq]
    dsimp only
    have hba : s.getD (⌊p1⌋).toNat 0 ≤ s.getD ((⌊p1⌋).toNat + 1) (s.getD (⌊p1⌋).toNat 0) :=
      getD_succ_ge s hs _ hi1
    have key : (p1 - ⌊p1⌋) * (s.getD ((⌊p1⌋).toNat + 1) (s.getD (⌊p1⌋).toNat 0) -
        s.getD (⌊p1⌋).toNat 0) ≤ (p2 - ⌊p1⌋) * (s.getD ((⌊p1⌋).toNat + 1)
        (s.getD (⌊p1⌋).toNat 0) - s.getD (⌊p1⌋).toNat 0) :=
      mul_le_mul_of_nonneg_right (by linarith) (sub_nonneg.mpr hba)
    linarith

theorem percentile_mono (xs : List ℚ) {q1 q2 : ℚ} (h0 : 0 ≤ q1) (h12 : q1 ≤ q2)
    (h100 : q2 ≤ 100) : percentile xs q1 ≤ percentile xs q2 := by
  unfold percentile
  by_cases hxs : xs = []
  · simp [hxs]
  · rw [if_neg hxs, if_neg hxs]
    have hlen : 1 ≤ xs.length := List.length_pos.mpr hxs
    have hn1 : (0 : ℚ) ≤ (xs.length : ℚ) - 1 := by
      have : (1 : ℚ) ≤ (xs.length : ℚ) := by exact_mod_cast hlen
      linarith
    have hslen : (sortAsc xs).length = xs.length := List.length_insertionSort _ _
    apply interpAt_mono (sortAsc xs) (List.sorted_insertionSort _ xs)
    · intro hnil
      rw [hnil] at hslen
      simp at hslen
      omega
    · exact div_nonneg (mul_nonneg h0 hn1) (by norm_num)
    · exact (div_le_div_iff_of_pos_right (by norm_num : (0:ℚ) < 100)).mpr
        (mul_le_mul_of_nonneg_right h12 hn1)
    · rw [hslen, div_le_iff₀ (by norm_num : (0:ℚ) < 100)]
      nlinarith [mul_le_mul_of_nonneg_right h100 hn1]

/-- C9 (amended): quantile monotonicity p10 ≤ p25 ≤ p50 ≤ p75 ≤ p90 holds
at every horizon step for `NaiveModel.predict` output whenever the fitted
`last_value` is nonnegative (which is the case for every series of
nonnegative values, since `last_value = series[-1]`), and holds
unconditionally for the Croston-family bootstrap quantiles (every simulated
value and every draw included). It fails for the naive model on series with
a negative last value — see the counterexample. -/
theorem C9_quantile_monotonicity :
    (∀ (last_value std : ℚ) (horizonte_semanas : ℕ), 0 ≤ last_value →
      ∀ q ∈ NaiveModel.predictOne last_value std horizonte_semanas,
        q.p10 ≤ q.p25 ∧ q.p25 ≤ q.p50 ∧ q.p50 ≤ q.p75 ∧ q.p75 ≤ q.p90)
  ∧ (∀ (series : List ℚ) (horizon n_paths : ℕ) (u d : ℕ → ℕ → ℚ),
      ∀ q ∈ bootstrapQuantiles series horizon n_paths u d,
        q.p10 ≤ q.p25 ∧ q.p25 ≤ q.p50 ∧ q.p50 ≤ q.p75 ∧ q.p75 ≤ q.p90) := by
  constructor
  · intro last_value std horizonte_semanas hlast q hq
    unfold NaiveModel.predictOne at hq
    rw [List.eq_of_mem_replicate hq]
    by_cases hstd : 0 < std
    · simp only [if_pos hstd]
      have hs : (0 : ℚ) ≤ std := le_of_lt hstd
      refine ⟨?_, ?_, ?_, ?_⟩
      · exact roundTo_mono 2 (max_le_max (by nlinarith) le_rfl)
      · exact roundTo_mono 2 (max_le (by nlinarith) hlast)
      · exact roundTo_mono 2 (by nlinarith)
      · exact roundTo_mono 2 (by nlinarith)
    · simp only [if_neg hstd]
      exact ⟨le_rfl, le_rfl, le_rfl, le_rfl⟩
  · intro series horizon n_paths u d q hq
    unfold bootstrapQuantiles at hq
    by_cases hnv : series.filter (fun x => decide (0 < x)) = []
    · rw [if_pos hnv] at hq
      rw [List.eq_of_mem_replicate hq]
      exact ⟨le_rfl, le_rfl, le_rfl, le_rfl⟩
    · rw [if_neg hnv] at hq
      obtain ⟨step, -, rfl⟩ := List.mem_map.mp hq
      refine ⟨roundTo_mono 2 (percentile_mono _ (by norm_num) (by norm_num) (by norm_num)),
        roundTo_mono 2 (percentile_mono _ (by norm_num) (by norm_num) (by norm_num)),
        roundTo_mono 2 (percentile_mono _ (by norm_num) (by norm_num) (by norm_num)),
        roundTo_mono 2 (percentile_mono _ (by norm_num) (by norm_num) (by norm_num))⟩

/-- Witness for C9 (amended) at concrete inputs: the naive model with
nonnegative fitted state (5, 0) and the bootstrap over series `[2, 0, 3]`
with constant draws. -/
theorem C9_quantile_monotonicity_witness :
    (∀ q ∈ NaiveModel.predictOne 5 0 1,
      q.p10 ≤ q.p25 ∧ q.p25 ≤ q.p50 ∧ q.p50 ≤ q.p75 ∧ q.p75 ≤ q.p90)
  ∧ (∀ q ∈ bootstrapQuantiles [2, 0, 3] 2 4 (fun _ _ => 1/2) (fun _ _ => 2),
      q.p10 ≤ q.p25 ∧ q.p25 ≤ q.p50 ∧ q.p50 ≤ q.p75 ∧ q.p75 ≤ q.p90) :=
  ⟨C9_quantile_monotonicity.1 5 0 1 (by norm_num),
   C9_quantile_monotonicity.2 [2, 0, 3] 2 4 (fun _ _ => 1/2) (fun _ _ => 2)⟩

/-- C9 counterexample: `NaiveModel.predict` violates p25 ≤ p50 on a series
with a negative last value. Training on the series `[5, -5]` stores
`last_value = float([5, -5][-1]) = -5`, `std = np.std([5, -5]) = 5`
(mean 0, squared deviations 25, exact square root); predicting then clamps
`p25 = max(-5 - 0.67*5, 0) = 0` while `p50 = -5`, so p25 > p50. -/
theorem C9_counterexample :
    ((NaiveModel.predictOne (-5) 5 1).headD default).p25 = 0
  ∧ ((NaiveModel.predictOne (-5) 5 1).headD default).p50 = -5
  ∧ ¬ (((NaiveModel.predictOne (-5) 5 1).headD default).p25 ≤
      ((NaiveModel.predictOne (-5) 5 1).headD default).p50) := by
  have hq : NaiveModel.predictOne (-5) 5 1 =
      [{ p10 := 0, p25 := 0, p50 := -5, p75 := roundTo 2 (-5 + 0.67 * 5),
         p90 := roundTo 2 (-5 + 1.28 * 5) }] := by
    unfold NaiveModel.predictOne
    norm_num [roundTo, rhalfEven]
  rw [hq]
  norm_num [List.headD]
